import Mathlib

/-
Verification development for the LLM-Travel-Agents repository.

This file gives a shallow embedding, in Lean 4, of the conversation/session
state machine, the itinerary persistence layer, the accommodation-enrichment
loop and the supporting helpers of the repository (src/main.py, src/api.py,
src/app.py, src/storage.py), and proves or refutes the frozen claims about
them.

Modelling conventions:
- Python strings are Lean `String`s; the Python `str.strip`, `str.lower`,
  `str.upper` helpers are re-implemented over `List Char` (ASCII case
  mapping; `str.casefold` coincides with `str.lower` on ASCII data).
- JSON values are the inductive `JsonVal`; objects are association lists in
  insertion order, numbers are restricted to integers (the itinerary
  documents and all inputs exercised by the claims only use integers).
  `Json.parse` is a fuel-indexed recursive-descent parser standing in for
  Python's `json.loads` on this fragment.
- Machine floats appear in the source only in the budget computations
  (`int(float(b))`, `budget_val / nights`, `* 0.5`, `* 1.25`, `* 1.5`);
  on the nonnegative-integer budget strings modelled here all those
  truncations coincide with exact natural-number division, which is how
  they are embedded (`v / 2`, `v * 5 / 4`, `v / (2*n)`, `3 * v / (2*n)`).
- The external HTTP boundary (Agoda search) is an oracle
  `Nat → NetResult`: the n-th outbound POST either raises (`exn`), returns
  HTTP 200 with a parsed JSON body (`ok`), or returns a non-200 status with
  a body (`bad`).  A 200 response whose body fails to parse as JSON raises
  inside the same `try` as the request itself, so it is identified with
  `exn`.
- The agent runtime (`Runner.run`) is a black box producing an ordered list
  of typed run items plus a canonical next-turn transcript
  (`to_input_list`), exactly as the orchestrators consume it.
-/

/-! ### Python-style string helpers -/

/-- Python `str.strip` whitespace codepoints (the ASCII part). -/
def wsNat (n : Nat) : Bool :=
  n == 32 || n == 9 || n == 10 || n == 13 || n == 11 || n == 12

/-- Python `str.strip` whitespace test. -/
def isPyWs (c : Char) : Bool := wsNat c.toNat

/-- Strip leading and trailing whitespace from a character list. -/
def stripChars (l : List Char) : List Char :=
  ((l.dropWhile isPyWs).reverse.dropWhile isPyWs).reverse

/-- Model of Python `str.strip()`. -/
def pyStrip (s : String) : String := ⟨stripChars s.data⟩

/-- Model of Python `str.lower()` (and of `str.casefold()` on ASCII data). -/
def pyLower (s : String) : String := ⟨s.data.map Char.toLower⟩

/-- Model of Python `str.upper()` on ASCII data. -/
def pyUpper (s : String) : String := ⟨s.data.map Char.toUpper⟩

/-- Model of Python `str.startswith`. -/
def pyStartsWith (s pre : String) : Bool := pre.data.isPrefixOf s.data

/-- Everything after the first `':'`: models `s.split(":", 1)[1]` (the callers
only use it after checking that a colon is present). -/
def afterFirstColon (s : String) : String :=
  ⟨(s.data.dropWhile (fun c => c != ':')).drop 1⟩

/-! ### JSON values -/

/-- JSON values as produced by `json.loads` (numbers restricted to
integers; objects are key/value lists in insertion order with unique keys,
as Python dicts built by the parser have). -/
inductive JsonVal where
  | null : JsonVal
  | bool (b : Bool) : JsonVal
  | num (n : Int) : JsonVal
  | str (s : String) : JsonVal
  | arr (xs : List JsonVal) : JsonVal
  | obj (kvs : List (String × JsonVal)) : JsonVal

/-- `d.get(k)` on an object's binding list. -/
def lookupKey : List (String × JsonVal) → String → Option JsonVal
  | [], _ => none
  | (k, v) :: rest, key => if k == key then some v else lookupKey rest key

/-- `d[k] = v` on an object's binding list: replace the first binding of `k`,
or append a new one. -/
def setKey : List (String × JsonVal) → String → JsonVal → List (String × JsonVal)
  | [], key, v => [(key, v)]
  | (k, w) :: rest, key, v =>
      if k == key then (k, v) :: rest else (k, w) :: setKey rest key v

/-- Python truthiness of a JSON value (`bool(x)`). -/
def truthy : JsonVal → Bool
  | .null => false
  | .bool b => b
  | .num n => n != 0
  | .str s => s != ""
  | .arr xs => !xs.isEmpty
  | .obj kvs => !kvs.isEmpty

/-! ### JSON parser (model of `json.loads` on the integer fragment) -/

def digitNat (n : Nat) : Bool := 48 ≤ n && n ≤ 57

def isDigitChar (c : Char) : Bool := digitNat c.toNat

def digitsToNat (l : List Char) : Nat :=
  l.foldl (fun a c => a * 10 + (c.toNat - 48)) 0

def skipWs (l : List Char) : List Char := l.dropWhile isPyWs

/-- Parse a JSON string body after the opening quote; supports the simple
escapes `\"`, `\\`, `\/`, `\n`, `\t`, `\r`. -/
def parseStringBody : List Char → Option (String × List Char)
  | [] => none
  | '"' :: rest => some ("", rest)
  | '\\' :: e :: rest => do
      let c ← match e with
        | '"' => some '"'
        | '\\' => some '\\'
        | '/' => some '/'
        | 'n' => some '\n'
        | 't' => some '\t'
        | 'r' => some '\r'
        | _ => none
      let (s, r) ← parseStringBody rest
      some (⟨c :: s.data⟩, r)
  | c :: rest => do
      let (s, r) ← parseStringBody rest
      some (⟨c :: s.data⟩, r)

mutual

/-- Fuel-indexed recursive-descent JSON value parser. -/
def parseJsonVal : Nat → List Char → Option (JsonVal × List Char)
  | 0, _ => none
  | fuel + 1, l =>
    match skipWs l with
    | 'n' :: 'u' :: 'l' :: 'l' :: rest => some (.null, rest)
    | 't' :: 'r' :: 'u' :: 'e' :: rest => some (.bool true, rest)
    | 'f' :: 'a' :: 'l' :: 's' :: 'e' :: rest => some (.bool false, rest)
    | '"' :: rest => do
        let (s, r) ← parseStringBody rest
        some (.str s, r)
    | '-' :: rest =>
        let ds := rest.takeWhile isDigitChar
        if ds.isEmpty then none
        else some (.num (-(digitsToNat ds : Int)), rest.dropWhile isDigitChar)
    | '[' :: rest =>
        (match skipWs rest with
          | ']' :: r => some (.arr [], r)
          | r => do
              let (xs, r') ← parseArrayItems fuel r
              some (.arr xs, r'))
    | '{' :: rest =>
        (match skipWs rest with
          | '}' :: r => some (.obj [], r)
          | r => do
              let (kvs, r') ← parseObjectItems fuel r
              some (.obj kvs, r'))
    | c :: rest =>
        if isDigitChar c then
          let ds := (c :: rest).takeWhile isDigitChar
          some (.num (digitsToNat ds : Int), (c :: rest).dropWhile isDigitChar)
        else none
    | [] => none

/-- Comma-separated JSON array elements up to the closing bracket. -/
def parseArrayItems : Nat → List Char → Option (List JsonVal × List Char)
  | 0, _ => none
  | fuel + 1, l => do
      let (v, r) ← parseJsonVal fuel l
      match skipWs r with
      | ',' :: r' => do
          let (vs, r'') ← parseArrayItems fuel r'
          some (v :: vs, r'')
      | ']' :: r' => some ([v], r')
      | _ => none

/-- Comma-separated JSON object members up to the closing brace. -/
def parseObjectItems : Nat → List Char → Option (List (String × JsonVal) × List Char)
  | 0, _ => none
  | fuel + 1, l => do
      match skipWs l with
      | '"' :: rest => do
          let (k, r) ← parseStringBody rest
          match skipWs r with
          | ':' :: r' => do
              let (v, r'') ← parseJsonVal fuel r'
              match skipWs r'' with
              | ',' :: r3 => do
                  let (kvs, r4) ← parseObjectItems fuel r3
                  some ((k, v) :: kvs, r4)
              | '}' :: r3 => some ([(k, v)], r3)
              | _ => none
          | _ => none
      | _ => none

end

/-- Model of `json.loads`: parse one JSON value and require that only
whitespace remains. -/
def jsonParse (s : String) : Option JsonVal :=
  match parseJsonVal (s.length + 1) s.data with
  | some (v, rest) => if (skipWs rest).isEmpty then some v else none
  | none => none


/-! ### Budget parsing and rate ranges (src/main.py `infer_rate_range` and the
total-budget override in `populate_accommodations_from_agoda_tool`) -/

/-- Model of `float(s)` followed by `int(...)` on nonnegative integer
numerals: Python's `float` strips surrounding whitespace itself; any other
string (including the category labels) raises, modelled as `none`.  The
model is restricted to nonnegative integer literals, on which `int(float s)`
is exact. -/
def parsePyFloat (s : String) : Option Nat :=
  let l := stripChars s.data
  if l.isEmpty then none
  else if l.all isDigitChar then some (digitsToNat l) else none

/-- Model of `infer_rate_range` (src/main.py lines 71–87): map budget labels
to nightly USD ranges, fall back to a band around a bare numeric value, and
default to (20, 500).  `int(val * 0.5)` and `int(val * 1.25)` are exact
natural divisions `v / 2` and `v * 5 / 4` on nonnegative integers. -/
def infer_rate_range (budget : Option String) : Nat × Nat :=
  match budget with
  | none => (20, 500)
  | some bs =>
    if bs = "" then (20, 500)
    else
      let b := pyLower (pyStrip bs)
      if b = "budget" || b = "cheap" || b = "low" then (20, 80)
      else if b = "mid" || b = "mid-range" || b = "medium" then (80, 200)
      else if b = "luxury" || b = "high" || b = "premium" then (200, 800)
      else
        match parsePyFloat b with
        | some v => (max 20 (v / 2), max 40 (v * 5 / 4))
        | none => (20, 500)

/-- Model of the nightly-band computation in
`populate_accommodations_from_agoda_tool` (src/main.py lines 284–302):
start from `infer_rate_range`, then, when the budget parses as a number
greater than 500, treat it as a total trip budget and re-derive the band
from the nightly base `budget / nights` with `nights = max 1 numDays`.
`int(nightly_base * 0.5)` and `int(nightly_base * 1.5)` are the exact
divisions `v / (2 * nights)` and `3 * v / (2 * nights)`. -/
def nightlyBand (budget : Option String) (numDays : Nat) : Nat × Nat :=
  let r := infer_rate_range budget
  match budget.bind parsePyFloat with
  | none => r
  | some v =>
    if v ≠ 0 ∧ v > 500 then
      let nights := max 1 numDays
      let minRate := max 20 (v / (2 * nights))
      let maxRate := max (minRate + 20) (3 * v / (2 * nights))
      (minRate, maxRate)
    else r

/-! ### City resolver (src/main.py `_normalize_city_name`, `map_city_to_id`) -/

/-- Model of `_normalize_city_name`: `(name or "").strip().casefold()`
(ASCII case-folding). -/
def normalize_city_name (name : String) : String := pyLower (pyStrip name)

/-- The in-memory city table (`_CITY_NAME_TO_ID`): normalized name → city id,
as populated by `load_city_mapping` (keys are normalized at load). -/
abbrev CityTable := List (String × Nat)

def cityLookup : CityTable → String → Option Nat
  | [], _ => none
  | (k, v) :: rest, key => if k == key then some v else cityLookup rest key

/-- Model of `map_city_to_id`: look the normalized name up in the loaded
table; absent names give `none` (`dict.get`), never an error. -/
def map_city_to_id (table : CityTable) (cityName : String) : Option Nat :=
  cityLookup table (normalize_city_name cityName)

/-! ### Dates (model of `datetime.strptime(_, "%Y-%m-%d")`, `timedelta`
arithmetic and `strftime("%Y-%m-%d")`) -/

structure PDate where
  year : Int
  month : Nat
  day : Nat
deriving DecidableEq, Repr

def isLeapYear (y : Int) : Bool := y % 4 == 0 && (y % 100 != 0 || y % 400 == 0)

def daysInMonth (y : Int) (m : Nat) : Nat :=
  if m == 2 then (if isLeapYear y then 29 else 28)
  else if m == 4 || m == 6 || m == 9 || m == 11 then 30
  else 31

/-- Serial day number of a civil date (days since 1970-01-01, the standard
civil-from-days construction); differences of these model
`(d2 - d1).days`. -/
def toSerial (d : PDate) : Int :=
  let y : Int := if d.month ≤ 2 then d.year - 1 else d.year
  let era : Int := (if 0 ≤ y then y else y - 399) / 400
  let yoe : Int := y - era * 400
  let mp : Int := ((d.month : Int) + 9) % 12
  let doy : Int := (153 * mp + 2) / 5 + (d.day : Int) - 1
  let doe : Int := yoe * 365 + yoe / 4 - yoe / 100 + doy
  era * 146097 + doe - 719468

/-- Civil date of a serial day number (inverse of `toSerial`). -/
def ofSerial (z0 : Int) : PDate :=
  let z := z0 + 719468
  let era : Int := (if 0 ≤ z then z else z - 146096) / 146097
  let doe : Int := z - era * 146097
  let yoe : Int := (doe - doe / 1460 + doe / 36524 - doe / 146096) / 365
  let y : Int := yoe + era * 400
  let doy : Int := doe - (365 * yoe + yoe / 4 - yoe / 100)
  let mp : Int := (5 * doy + 2) / 153
  let d : Int := doy - (153 * mp + 2) / 5 + 1
  let m : Int := if mp < 10 then mp + 3 else mp - 9
  { year := if m ≤ 2 then y + 1 else y, month := m.toNat, day := d.toNat }

/-- Model of `start + timedelta(days = i)`. -/
def addDays (d : PDate) (i : Nat) : PDate := ofSerial (toSerial d + i)

/-- Model of `(e - s).days` for parsed dates. -/
def dayDiff (e s : PDate) : Int := toSerial e - toSerial s

def splitOnChar (sep : Char) (l : List Char) : List (List Char) :=
  match l.foldr (fun c acc =>
    match acc with
    | [] => [[c]]
    | cur :: rest => if c == sep then [] :: (cur :: rest) else (c :: cur) :: rest) [] with
  | [] => [[]]
  | parts => parts

/-- Model of `datetime.strptime(s, "%Y-%m-%d")`: three dash-separated
nonnegative decimal fields making a valid calendar date.  (Python accepts
1–4 digit years and 1–2 digit month/day fields; the claims use the padded
form.) -/
def parseDate (s : String) : Option PDate :=
  match splitOnChar '-' s.data with
  | [ys, ms, ds] =>
    if ys ≠ [] && ms ≠ [] && ds ≠ [] && ys.all isDigitChar && ms.all isDigitChar
        && ds.all isDigitChar && ys.length ≤ 4 && ms.length ≤ 2 && ds.length ≤ 2 then
      let y := digitsToNat ys
      let m := digitsToNat ms
      let d := digitsToNat ds
      if 1 ≤ m && m ≤ 12 && 1 ≤ d && d ≤ daysInMonth (y : Int) m && 1 ≤ y then
        some { year := (y : Int), month := m, day := d }
      else none
    else none
  | _ => none

def padNat (width n : Nat) : String :=
  let s := toString n
  ⟨List.replicate (width - s.length) '0' ++ s.data⟩

/-- Model of `strftime("%Y-%m-%d")` (years in 1..9999, as `datetime` has). -/
def formatDate (d : PDate) : String :=
  padNat 4 d.year.toNat ++ "-" ++ padNat 2 d.month ++ "-" ++ padNat 2 d.day


/-! ### Itinerary store (src/storage.py) -/

/-- The persistent keyed JSON-document store (file-per-conversation or the
relational table: both are a map conversation id → document text, which is
all the callers observe). -/
abbrev Store := List (String × String)

def storeLookup : Store → String → Option String
  | [], _ => none
  | (k, v) :: rest, key => if k == key then some v else storeLookup rest key

/-- Insert-or-replace for the store (the DB `on conflict do update`, or the
file overwrite). -/
def storeUpsert : Store → String → String → Store
  | [], key, v => [(key, v)]
  | (k, w) :: rest, key, v =>
      if k == key then (k, v) :: rest else (k, w) :: storeUpsert rest key v

/-- Model of `read_itinerary_json` (src/storage.py lines 23–41): return the
stored text, or raise `ValueError("No itinerary found ...")` when no
document exists for the id. -/
def read_itinerary_json (store : Store) (conversationId : String) : Except String String :=
  match storeLookup store conversationId with
  | some text => .ok text
  | none => .error ("No itinerary found for conversation ID: " ++ conversationId)

/-- Model of `write_itinerary_json` (src/storage.py lines 44–66): validate
with `json.loads` first — a malformed document raises before any
persistence side effect — then upsert the full document text keyed by the
conversation id and return it. -/
def write_itinerary_json (store : Store) (conversationId : String)
    (itineraryJson : String) : Except String Store :=
  match jsonParse itineraryJson with
  | none => .error "InvalidDocument"
  | some _ => .ok (storeUpsert store conversationId itineraryJson)

/-! ### Trip context and itinerary creation (src/main.py
`TripPlannerContext`, `create_itinerary_json_tool`) -/

structure TripPlannerContext where
  destination : Option String := none
  startDate : Option String := none
  endDate : Option String := none
  budget : Option String := none
  travelStyle : Option String := none
  numberOfPeople : Option Nat := none
  conversationId : Option String := none
deriving DecidableEq, Repr

/-- Python truthiness of an optional string (`not x` catches both `None`
and the empty string). -/
def optTruthy : Option String → Bool
  | none => false
  | some s => s ≠ ""

structure ItineraryDay where
  date : String
  dayNumber : Nat
  location : String
  activities : List String
  transportation : String
  accommodation : List String
  notes : String
deriving DecidableEq, Repr

structure ItineraryOutput where
  destination : String
  description : String
  startDate : String
  endDate : String
  durationDays : Int
  itinerary : List ItineraryDay
deriving DecidableEq, Repr

/-- Model of `create_itinerary_json_tool` (src/main.py lines 178–233):
require truthy destination/start/end in context, parse the dates, take the
inclusive day count as the duration, and build one `ItineraryDay` per day
with 1-based day numbers, consecutive dates, and the per-day inputs padded
with defaults (`range` of a nonpositive duration is empty).  The resulting
document (the tool also serializes and persists it) is returned. -/
def create_itinerary_json_tool (ctx : TripPlannerContext)
    (activitiesPerDay : List (List String)) (transportation : List String)
    (accommodations : List (List String)) (notes : List String)
    (description : String) : Except String ItineraryOutput :=
  if optTruthy ctx.startDate && optTruthy ctx.endDate && optTruthy ctx.destination then
    let sds := ctx.startDate.getD ""
    let eds := ctx.endDate.getD ""
    let dest := ctx.destination.getD ""
    match parseDate sds, parseDate eds with
    | some s, some e =>
      let durationDays : Int := dayDiff e s + 1
      let days := (List.range durationDays.toNat).map (fun i =>
        { date := formatDate (addDays s i)
          dayNumber := i + 1
          location := dest
          activities := activitiesPerDay.getD i []
          transportation := transportation.getD i "None"
          accommodation := accommodations.getD i []
          notes := notes.getD i "" : ItineraryDay })
      .ok { destination := dest, description := description, startDate := sds,
            endDate := eds, durationDays := durationDays, itinerary := days }
    | _, _ => .error "date parse error"
  else .error "Missing required context: destination, start_date, or end_date"

/-! ### Python `str()` / `repr()` of parsed JSON values (used by the
f-string interpolations in `format_itinerary_for_display`) -/

mutual

/-- Python `repr` of a `json.loads` value (string escaping omitted — the
documents exercised here contain no quotes inside strings). -/
def pyRepr : JsonVal → String
  | .null => "None"
  | .bool true => "True"
  | .bool false => "False"
  | .num n => toString n
  | .str s => "'" ++ s ++ "'"
  | .arr xs => "[" ++ pyReprArr xs ++ "]"
  | .obj kvs => "\x7b" ++ pyReprObj kvs ++ "\x7d"

def pyReprArr : List JsonVal → String
  | [] => ""
  | [x] => pyRepr x
  | x :: xs => pyRepr x ++ ", " ++ pyReprArr xs

def pyReprObj : List (String × JsonVal) → String
  | [] => ""
  | [(k, v)] => "'" ++ k ++ "': " ++ pyRepr v
  | (k, v) :: kvs => "'" ++ k ++ "': " ++ pyRepr v ++ ", " ++ pyReprObj kvs

end

/-- Python `str` of a `json.loads` value (what an f-string interpolates). -/
def pyStr : JsonVal → String
  | .null => "None"
  | .bool true => "True"
  | .bool false => "False"
  | .num n => toString n
  | .str s => s
  | .arr xs => "[" ++ pyReprArr xs ++ "]"
  | .obj kvs => "\x7b" ++ pyReprObj kvs ++ "\x7d"

/-! ### `format_itinerary_for_display` (src/main.py lines 519–543) -/

/-- Model of `', '.join(x)`: joins a list of strings, or the characters of a
string; any other argument raises `TypeError` (`none`). -/
def pyJoinComma : JsonVal → Option String
  | .arr xs =>
      let rec strsOf : List JsonVal → Option (List String)
        | [] => some []
        | .str s :: rest => (strsOf rest).map (s :: ·)
        | _ :: _ => none
      (strsOf xs).map (String.intercalate ", ")
  | .str s => some (String.intercalate ", " (s.data.map (fun c => ⟨[c]⟩)))
  | _ => none

/-- `acc.get('results') or acc.get('hotels') or acc.get('properties') or []`:
first truthy value in the chain, else the empty list. -/
def itemsOfResponse (kvs : List (String × JsonVal)) : JsonVal :=
  let pick : Option JsonVal → JsonVal → JsonVal := fun o fb =>
    match o with
    | some v => if truthy v then v else fb
    | none => fb
  pick (lookupKey kvs "results") (pick (lookupKey kvs "hotels")
    (pick (lookupKey kvs "properties") (.arr [])))

/-- `len(items) if hasattr(items, '__len__') else 'unknown'` rendered into
the summary line. -/
def lenOrUnknown : JsonVal → String
  | .arr xs => toString xs.length
  | .obj kvs => toString kvs.length
  | .str s => toString s.data.length
  | _ => "unknown"

/-- The accommodation summary string of `format_itinerary_for_display`. -/
def accSummary (acc : Option JsonVal) : Option String :=
  match acc with
  | some (.arr xs) =>
      if xs.all (fun x => match x with | .str _ => true | _ => false) then
        pyJoinComma (.arr xs)
      else some ("Agoda response list with " ++ toString xs.length ++ " entries")
  | some (.obj kvs) =>
      some ("Agoda response with " ++ lenOrUnknown (itemsOfResponse kvs) ++ " items")
  | some .null => some "None"
  | some v => some (pyStr v)
  | none => some "None"

/-- One day's block of the display output; `none` models a raised
`KeyError`/`TypeError`. -/
def formatDayBlock (day : JsonVal) : Option String := do
  match day with
  | .obj kvs => do
      let dn ← lookupKey kvs "day_number"
      let date ← lookupKey kvs "date"
      let loc ← lookupKey kvs "location"
      let acts ← lookupKey kvs "activities"
      let actsStr ← pyJoinComma acts
      let trans ← lookupKey kvs "transportation"
      let accStr ← accSummary (lookupKey kvs "accommodation")
      let notes ← lookupKey kvs "notes"
      pure ("Day " ++ pyStr dn ++ " (" ++ pyStr date ++ "):\n"
        ++ "  Location: " ++ pyStr loc ++ "\n"
        ++ "  Activities: " ++ actsStr ++ "\n"
        ++ "  Transportation: " ++ pyStr trans ++ "\n"
        ++ "  Accommodation: " ++ accStr ++ "\n"
        ++ "  Notes: " ++ pyStr notes ++ "\n\n")
  | _ => none

/-- Model of `format_itinerary_for_display` applied to an already-parsed
document; `none` models a raised exception (missing key, non-list
`itinerary`, unjoinable `activities`). -/
def formatItineraryVal (v : JsonVal) : Option String := do
  match v with
  | .obj kvs => do
      let dest ← lookupKey kvs "destination"
      let desc ← lookupKey kvs "description"
      let sd ← lookupKey kvs "start_date"
      let ed ← lookupKey kvs "end_date"
      let dur ← lookupKey kvs "duration_days"
      let days ← match lookupKey kvs "itinerary" with
        | some (.arr ds) => some ds
        | _ => none
      let blocks ← days.mapM formatDayBlock
      pure ("Trip to " ++ pyStr dest ++ "\n"
        ++ "Description: " ++ pyStr desc ++ "\n"
        ++ "Dates: " ++ pyStr sd ++ " to " ++ pyStr ed
        ++ " (" ++ pyStr dur ++ " days)\n\n"
        ++ "Itinerary:\n" ++ String.join blocks)
  | _ => none

/-- Model of `format_itinerary_for_display` as in the source (taking the
document text and `json.loads`-ing it first). -/
def format_itinerary_for_display (itineraryJson : String) : Option String :=
  (jsonParse itineraryJson).bind formatItineraryVal

/-! ### Agent roster, run items and reply formatting (src/api.py) -/

/-- The five pipeline stages (the agent roster of src/main.py). -/
inductive Stage where
  | userPreferences | destinationResearch | itineraryStage | booking | summary
deriving DecidableEq, Repr

/-- The `name=` of each agent in src/main.py. -/
def stageName : Stage → String
  | .userPreferences => "user_preferences_agent"
  | .destinationResearch => "destination_research_agent"
  | .itineraryStage => "itinerary_agent"
  | .booking => "booking_agent"
  | .summary => "summary_agent"

/-- The `agent_by_key` dictionary used for the custom text-protocol handoff
(src/api.py lines 142–148, src/main.py lines 635–641). -/
def agentByKey (key : String) : Option Stage :=
  if key = "user_preferences" then some .userPreferences
  else if key = "destination_research" then some .destinationResearch
  else if key = "itinerary" then some .itineraryStage
  else if key = "booking" then some .booking
  else if key = "summary" then some .summary
  else none

/-- The typed items the agent runtime produces for one turn
(`MessageOutputItem` with its extracted text, `HandoffOutputItem` with its
source and target agents, `ToolCallItem`, `ToolCallOutputItem`). -/
inductive RunItem where
  | message (text : String)
  | handoff (source target : Stage)
  | toolCall (agent : Stage)
  | toolOut (agent : Stage) (output : String)
deriving DecidableEq, Repr

/-- `isinstance(parsed, dict) and {"destination","start_date","end_date",
"itinerary"}.issubset(parsed.keys())` — the itinerary-shape sniff of
src/api.py `_format_message`. -/
def hasItineraryKeys (p : JsonVal) : Bool :=
  match p with
  | .obj kvs =>
      (lookupKey kvs "destination").isSome && (lookupKey kvs "start_date").isSome
        && (lookupKey kvs "end_date").isSome && (lookupKey kvs "itinerary").isSome
  | _ => false

/-- Model of `_format_message` (src/api.py lines 72–114): messages whose
text parses as itinerary-shaped JSON are rendered with
`format_itinerary_for_display` (falling back to a fixed phrase if the
formatter raises); any other message text is returned as-is; handoffs and
tool calls get status lines; tool outputs are rendered only when
itinerary-shaped, and otherwise become a fixed status line. -/
def formatMessage : RunItem → String
  | .message t =>
      if t = "" then ""
      else
        match jsonParse t with
        | some p =>
            if hasItineraryKeys p then (formatItineraryVal p).getD "Itinerary updated."
            else t
        | none => t
  | .handoff src tgt =>
      "Handed off from " ++ stageName src ++ " to " ++ stageName tgt
  | .toolCall a => stageName a ++ ": Calling a tool"
  | .toolOut a out =>
      match jsonParse out with
      | some p =>
          if hasItineraryKeys p then
            (formatItineraryVal p).getD (stageName a ++ ": Itinerary updated.")
          else stageName a ++ ": Tool completed."
      | none => stageName a ++ ": Tool completed."

/-! ### The chat-turn orchestrator (src/api.py `chat`) -/

/-- One transcript entry (`{"content": ..., "role": ...}`). -/
structure Entry where
  role : String
  content : String
deriving DecidableEq, Repr

/-- The synthetic system entry appended on a text-protocol handoff. -/
def systemEntry (conversationId : String) : Entry :=
  { role := "system", content := "Conversation ID: " ++ conversationId }

/-- The recognized text-protocol handoff target of a message text, if any:
`stripped.upper().startswith("HANDOFF:")` and the key after the first colon,
trimmed and lower-cased, is in `agent_by_key`. -/
def textHandoffTarget (text : String) : Option Stage :=
  let stripped := pyStrip text
  if pyStartsWith (pyUpper stripped) "HANDOFF:" then
    agentByKey (pyLower (pyStrip (afterFirstColon stripped)))
  else none

/-- State of the response-item loop in `chat` (src/api.py lines 154–170):
the pending active agent, the session transcript (mutated in place by the
text-protocol branch), and the accumulated reply lines. -/
structure LoopState where
  agent : Stage
  items : List Entry
  reply : List String
deriving DecidableEq, Repr

/-- One iteration of the item loop: collect the non-empty rendered line,
then apply the native-handoff branch or the text-protocol branch. -/
def stepItem (conversationId : String) (st : LoopState) (item : RunItem) : LoopState :=
  let fm := formatMessage item
  let st := if fm = "" then st else { st with reply := st.reply ++ [fm] }
  match item with
  | .handoff _ tgt => { st with agent := tgt }
  | .message t =>
      match textHandoffTarget t with
      | some a => { st with agent := a, items := st.items ++ [systemEntry conversationId] }
      | none => st
  | _ => st

/-- The full response-item loop of `chat`. -/
def processItems (conversationId : String) (st : LoopState) (items : List RunItem) : LoopState :=
  items.foldl (stepItem conversationId) st

/-- What the agent runtime hands back for one turn: the ordered new items
and the canonical next-turn transcript (`response.to_input_list()`). -/
structure RunResponse where
  newItems : List RunItem
  toInputList : List Entry

/-- A conversation session (src/api.py `_Session`): active agent pointer,
transcript, trip context. -/
structure Session where
  agent : Stage
  items : List Entry
  ctx : TripPlannerContext

/-- Model of one `chat` turn (src/api.py lines 134–180).  The context's
conversation id is ensured, the user message is appended to the transcript,
and the active agent is invoked; `none` for the run result models
`Runner.run` raising, which aborts the turn there (the endpoint errors, no
reply).  On success the items are drained, the active-agent pointer is
updated, and the transcript is replaced with the runtime's canonical
post-turn representation. -/
def chatTurn (conversationId : String) (sess : Session) (userMessage : String)
    (run : Option RunResponse) : Session × Option String :=
  let ctx := if sess.ctx.conversationId.isNone ∨ sess.ctx.conversationId = some "" then
      { sess.ctx with conversationId := some conversationId }
    else sess.ctx
  let items := sess.items ++ [{ role := "user", content := userMessage }]
  match run with
  | none => ({ agent := sess.agent, items := items, ctx := ctx }, none)
  | some resp =>
      let st := processItems conversationId
        { agent := sess.agent, items := items, reply := [] } resp.newItems
      let replyText := pyStrip (String.intercalate "\n" st.reply)
      ({ agent := st.agent, items := resp.toInputList, ctx := ctx },
        some (if replyText = "" then "Noted." else replyText))

/-! ### Accommodation enrichment (src/main.py
`populate_accommodations_from_agoda_tool`, lines 257–517) -/

/-- Outcome of one outbound POST to the search API: the request raises
(`exn` — connection error, timeout, or a 200 whose body fails to parse,
which raises inside the same `try`), returns 200 with a parsed JSON body
(`ok`), or returns a non-200 status with a body (`bad`). -/
inductive NetResult where
  | exn
  | ok (body : JsonVal)
  | bad (status : Nat) (body : JsonVal)

/-- The external HTTP boundary: the result of the n-th outbound POST of the
enrichment run (the request payloads do not feed back into the control
flow being modelled, so the oracle is indexed by call order alone). -/
abbrev NetOracle := Nat → NetResult

/-- The structured non-200 capture (`resp_error`): status, body, path. -/
def respErrorObj (status : Nat) (body : JsonVal) (path : String) : JsonVal :=
  .obj [("status", .num status), ("body", body), ("path", .str path)]

/-- The candidate endpoint paths (src/main.py lines 365–377): the
configured search path (slash-prefixed) followed by the fallbacks not
already listed, or just the bare base URL when no path is configured. -/
def candidatePaths (searchPath : String) : List String :=
  if searchPath = "" then [""]
  else
    let p := if pyStartsWith searchPath "/" then searchPath else "/" ++ searchPath
    let withFallback := fun (acc : List String) (fb : String) =>
      if acc.contains fb then acc else acc ++ [fb]
    withFallback (withFallback [p] "/hotels/search") "/search"

/-- `resp_json.get("results") or .get("hotels") or .get("properties") or []`
yields either a truthy value or `[]`; `no_items` then holds exactly when the
chain fell through to the empty default (a truthy value cannot have zero
length). -/
def noItems (kvs : List (String × JsonVal)) : Bool :=
  match itemsOfResponse kvs with
  | .arr [] => true
  | _ => false

/-- `isinstance(resp_json.get("error"), dict) and resp_json["error"].get("id") == 911`. -/
def explicitNoResult (kvs : List (String × JsonVal)) : Bool :=
  match lookupKey kvs "error" with
  | some (.obj e) =>
      match lookupKey e "id" with
      | some (.num 911) => true
      | _ => false
  | _ => false

/-- The retry loop over attempts for one path (src/main.py lines 392–420):
break with the parsed body on a 200, record the last non-200 capture, and
swallow request errors.  Returns (next call index, `resp_json`,
`resp_error`). -/
def attemptLoop (net : NetOracle) (path : String) :
    Nat → Nat → Option JsonVal → Nat × Option JsonVal × Option JsonVal
  | 0, c, err => (c, none, err)
  | k + 1, c, err =>
      match net c with
      | .ok body => (c + 1, some body, err)
      | .bad status body => attemptLoop net path k (c + 1) (some (respErrorObj status body path))
      | .exn => attemptLoop net path k (c + 1) err

/-- The second fallback (minimal payload, src/main.py lines 446–468),
entered with the current `resp_json`: only a 200 replaces it (`r3` errors
are swallowed by the enclosing `except`). -/
def secondFallback (net : NetOracle) (c : Nat) (rj : JsonVal) : Nat × JsonVal :=
  match rj with
  | .obj kvs =>
      if noItems kvs || explicitNoResult kvs then
        match net c with
        | .ok body => (c + 1, body)
        | _ => (c + 1, rj)
      else (c, rj)
  | _ => (c, rj)

/-- The permissive fallback block (src/main.py lines 421–470), entered with
a dict `resp_json`: when it has no items (or the explicit no-result code),
POST once without price filters — a raised request aborts the whole block
(the `except` at line 469) keeping the old body; a 200 replaces it — and
then try the minimal payload the same way. -/
def fallbackBlock (net : NetOracle) (c : Nat) (kvs : List (String × JsonVal)) :
    Nat × JsonVal :=
  if noItems kvs || explicitNoResult kvs then
    match net c with
    | .exn => (c + 1, .obj kvs)
    | .ok body => secondFallback net (c + 1) body
    | .bad _ _ => secondFallback net (c + 1) (.obj kvs)
  else (c, .obj kvs)

/-- The loop over candidate paths (src/main.py lines 380–472): run the
attempt loop, then, if a dict body was obtained, the fallback block; stop
at the first path that yields any body. -/
def pathLoop (net : NetOracle) :
    List String → Nat → Option JsonVal → Nat × Option JsonVal × Option JsonVal
  | [], c, err => (c, none, err)
  | path :: rest, c, err =>
      match attemptLoop net path 3 c err with
      | (c1, none, err1) => pathLoop net rest c1 err1
      | (c1, some body, err1) =>
          match body with
          | .obj kvs =>
              let (c2, body2) := fallbackBlock net c1 kvs
              (c2, some body2, err1)
          | other => (c1, some other, err1)

/-- The hint stored when the city cannot be resolved and the day has no
truthy accommodation yet (src/main.py lines 493–504). -/
def noCityHint (cityName : Option String) : JsonVal :=
  .obj [("agoda_error", .obj [("reason", .str "no_city_id"),
    ("city", match cityName with | some s => .str s | none => .null)])]

/-- The day's city name: `day_dict.get("location") or itinerary.get("destination")`
(Python `or`: a missing, null or empty location falls back to the
document's destination); only string values are meaningful to
`map_city_to_id`. -/
def dayCityName (destination : Option JsonVal) (kvs : List (String × JsonVal)) :
    Option String :=
  let pick : Option JsonVal → Option String := fun o =>
    match o with
    | some (.str s) => if s ≠ "" then some s else none
    | _ => none
  match pick (lookupKey kvs "location") with
  | some s => some s
  | none => pick destination

/-- Per-day enrichment (one iteration of the day loop, src/main.py lines
307–510): resolve the city id; with an id, run the path loop and store the
resulting body — or, when only a non-200 capture exists, the
`agoda_error` wrapper — into `accommodation`, leaving the day as-is when
nothing was obtained; with no id, store the `no_city_id` hint only when the
existing accommodation is missing or falsy. -/
def processDay (net : NetOracle) (paths : List String) (table : CityTable)
    (destination : Option JsonVal) (c : Nat) (kvs : List (String × JsonVal)) :
    Nat × List (String × JsonVal) :=
  let cityName := dayCityName destination kvs
  match map_city_to_id table (cityName.getD "") with
  | some _ =>
      let (c', rj, rerr) := pathLoop net paths c none
      let agodaResponse : Option JsonVal :=
        match rj with
        | some (.obj o) => some (.obj o)
        | some (.arr a) => some (.arr a)
        | _ =>
            match rerr with
            | some e => some (.obj [("agoda_error", e)])
            | none => none
      match agodaResponse with
      | some v => (c', setKey kvs "accommodation" v)
      | none => (c', kvs)
  | none =>
      let kvs' :=
        match lookupKey kvs "accommodation" with
        | some v => if truthy v then kvs else setKey kvs "accommodation" (noCityHint cityName)
        | none => setKey kvs "accommodation" (noCityHint cityName)
      (c, kvs')

/-- The itinerary day list of a parsed document (`itinerary.get("itinerary", [])`). -/
def itinDays (doc : List (String × JsonVal)) : List JsonVal :=
  match lookupKey doc "itinerary" with
  | some (.arr ds) => ds
  | _ => []

/-- One iteration of the day loop at the document level: enrich an object
day, carry anything else through (the source would raise on a non-object
day; no claim exercises that). -/
def enrichStep (net : NetOracle) (paths : List String) (table : CityTable)
    (dest : Option JsonVal) : Nat × List JsonVal → JsonVal → Nat × List JsonVal :=
  fun (c, acc) d =>
    match d with
    | .obj kvs =>
        let (c', kvs') := processDay net paths table dest c kvs
        (c', acc ++ [.obj kvs'])
    | other => (c, acc ++ [other])

/-- Model of the day loop plus the final document update of
`populate_accommodations_from_agoda_tool` (src/main.py lines 306–517):
each day dict is copied, enriched, and collected in order, and the day list
is written back into the document (which the tool then serializes and
persists in one write). -/
def populateAccommodations (net : NetOracle) (paths : List String)
    (table : CityTable) (doc : List (String × JsonVal)) : List (String × JsonVal) :=
  let res := (itinDays doc).foldl (enrichStep net paths table (lookupKey doc "destination")) (0, [])
  setKey doc "itinerary" (.arr res.2)

/-- The persistent state after a `write_itinerary_json` call: on success the
upserted store, on a raised validation error the store untouched (the
exception propagates before any persistence side effect). -/
def storeAfterWrite (store : Store) (conversationId text : String) : Store :=
  match write_itinerary_json store conversationId text with
  | .ok s' => s'
  | .error _ => store

/-- The handoff signal of a single run item: a native handoff event's
target, or a recognized text-protocol marker's target. -/
def signalTarget : RunItem → Option Stage
  | .handoff _ tgt => some tgt
  | .message t => textHandoffTarget t
  | _ => none

/-- The per-day frame relation of accommodation enrichment: an object day
maps to an object day agreeing on every key other than `accommodation`; a
non-object day is carried through unchanged. -/
def dayFrame (d d' : JsonVal) : Prop :=
  (∀ kvs, d = .obj kvs → ∃ kvs', d' = .obj kvs'
      ∧ ∀ k, k ≠ "accommodation" → lookupKey kvs' k = lookupKey kvs k)
  ∧ ((∀ kvs, d ≠ .obj kvs) → d' = d)

/-! ### Helper lemmas on case folding and stripping -/

theorem toNat_ofNat_small (n : Nat) (h : n < 55296) : (Char.ofNat n).toNat = n := by
  unfold Char.ofNat
  rw [dif_pos (Or.inl (by omega))]
  unfold Char.ofNatAux Char.toNat
  simp [UInt32.toNat, BitVec.toNat_ofNatLt]

theorem wsNat_eq_false_of_ge (n : Nat) (h : 65 ≤ n) : wsNat n = false := by
  unfold wsNat
  simp only [Bool.or_eq_false_iff, beq_eq_false_iff_ne, ne_eq]
  omega

theorem digitNat_eq_false_of_ge (n : Nat) (h : 65 ≤ n) : digitNat n = false := by
  unfold digitNat
  have : decide (n ≤ 57) = false := by simp; omega
  rw [this, Bool.and_false]

theorem isPyWs_toLower (c : Char) : isPyWs (Char.toLower c) = isPyWs c := by
  unfold Char.toLower
  by_cases h : c.toNat ≥ 65 ∧ c.toNat ≤ 90
  · rw [if_pos h]
    have h1 : (Char.ofNat (c.toNat + 32)).toNat = c.toNat + 32 :=
      toNat_ofNat_small _ (by omega)
    unfold isPyWs
    rw [h1, wsNat_eq_false_of_ge _ (by omega), wsNat_eq_false_of_ge _ (by omega)]
  · rw [if_neg h]

theorem isDigitChar_toLower (c : Char) : isDigitChar (Char.toLower c) = isDigitChar c := by
  unfold Char.toLower
  by_cases h : c.toNat ≥ 65 ∧ c.toNat ≤ 90
  · rw [if_pos h]
    have h1 : (Char.ofNat (c.toNat + 32)).toNat = c.toNat + 32 :=
      toNat_ofNat_small _ (by omega)
    unfold isDigitChar
    rw [h1, digitNat_eq_false_of_ge _ (by omega), digitNat_eq_false_of_ge _ (by omega)]
  · rw [if_neg h]

theorem toLower_of_digit (c : Char) (h : isDigitChar c = true) : Char.toLower c = c := by
  unfold Char.toLower
  unfold isDigitChar digitNat at h
  rw [if_neg]
  simp only [Bool.and_eq_true, decide_eq_true_eq] at h
  omega

theorem dropWhile_map_toLower (l : List Char) :
    (l.map Char.toLower).dropWhile isPyWs = (l.dropWhile isPyWs).map Char.toLower := by
  induction l with
  | nil => rfl
  | cons a l ih =>
      simp only [List.map_cons, List.dropWhile_cons, isPyWs_toLower]
      by_cases h : isPyWs a
      · simp [h, ih]
      · simp [h]

theorem stripChars_map_toLower (l : List Char) :
    stripChars (l.map Char.toLower) = (stripChars l).map Char.toLower := by
  unfold stripChars
  rw [dropWhile_map_toLower, ← List.map_reverse, dropWhile_map_toLower, ← List.map_reverse]

theorem stripChars_eq_rdrop (l : List Char) :
    stripChars l = List.rdropWhile isPyWs (l.dropWhile isPyWs) := by
  rfl

theorem dropWhile_rdropWhile_of_dropped (l : List Char)
    (h : l.dropWhile isPyWs = l) :
    (List.rdropWhile isPyWs l).dropWhile isPyWs = List.rdropWhile isPyWs l := by
  rw [List.dropWhile_eq_self_iff]
  intro hl
  have hpre : List.rdropWhile isPyWs l <+: l := List.rdropWhile_prefix _ _
  have hg : (List.rdropWhile isPyWs l).get ⟨0, hl⟩ = l.get ⟨0, by
      have := hpre.length_le
      omega⟩ := by
    simp only [List.get_eq_getElem]
    exact hpre.getElem _
  rw [hg]
  exact (List.dropWhile_eq_self_iff.mp h) _

theorem stripChars_idem (l : List Char) : stripChars (stripChars l) = stripChars l := by
  rw [stripChars_eq_rdrop, stripChars_eq_rdrop,
    dropWhile_rdropWhile_of_dropped _ (List.dropWhile_idempotent _ _),
    List.rdropWhile_idempotent]

theorem all_digits_map_toLower (l : List Char) :
    (l.map Char.toLower).all isDigitChar = l.all isDigitChar := by
  induction l with
  | nil => rfl
  | cons a l ih => simp [List.all_cons, isDigitChar_toLower, ih]

theorem map_toLower_of_all_digits (l : List Char) (h : l.all isDigitChar = true) :
    l.map Char.toLower = l := by
  induction l with
  | nil => rfl
  | cons a l ih =>
      simp only [List.all_cons, Bool.and_eq_true] at h
      simp [toLower_of_digit a h.1, ih h.2]

/-- `float(b)` on the normalized budget string agrees with `float(budget)`
on the raw one (lower-casing and re-stripping do not change numeral
parsing). -/
theorem parsePyFloat_lower_strip (s : String) :
    parsePyFloat (pyLower (pyStrip s)) = parsePyFloat s := by
  show parsePyFloat ⟨(stripChars s.data).map Char.toLower⟩ = parsePyFloat s
  unfold parsePyFloat
  show (let l := stripChars ((stripChars s.data).map Char.toLower)
    if l.isEmpty then none
    else if l.all isDigitChar then some (digitsToNat l) else none) = _
  simp only
  rw [stripChars_map_toLower, stripChars_idem]
  cases hc : stripChars s.data with
  | nil => rfl
  | cons a t =>
      simp only [List.map_cons, List.isEmpty_cons, Bool.false_eq_true, if_false]
      rw [← List.map_cons]
      by_cases hd : (a :: t).all isDigitChar = true
      · rw [map_toLower_of_all_digits _ hd]
      · rw [all_digits_map_toLower, Bool.of_not_eq_true hd]
        simp

/-! ### Claim theorems -/

theorem cityLookup_eq_none (table : CityTable) (key : String)
    (h : ¬ key ∈ table.map Prod.fst) : cityLookup table key = none := by
  induction table with
  | nil => rfl
  | cons kv rest ih =>
      obtain ⟨k, v⟩ := kv
      simp only [List.map_cons, List.mem_cons] at h
      push_neg at h
      unfold cityLookup
      rw [if_neg (by simp only [beq_iff_eq]; exact fun hh => h.1 hh.symm)]
      exact ih h.2

/-- C8: resolution is invariant under trim/case variants of a name (both
resolve through the same normalization), and names whose normalization is
absent from the table resolve to `none` (`map_city_to_id` is a total
function — it never raises). -/
theorem claim_c8_city_resolution :
    (∀ (table : CityTable) (name variant : String),
        normalize_city_name variant = normalize_city_name name →
        map_city_to_id table variant = map_city_to_id table name)
    ∧ (∀ (table : CityTable) (name : String),
        ¬ normalize_city_name name ∈ table.map Prod.fst →
        map_city_to_id table name = none) := by
  constructor
  · intro table name variant h
    unfold map_city_to_id
    rw [h]
  · intro table name h
    unfold map_city_to_id
    exact cityLookup_eq_none _ _ h

/-- Witness for C8: `"Paris"` and `" paris "` resolve identically in a table
containing `paris`, and an absent name resolves to `none`. -/
theorem claim_c8_city_resolution_witness :
    map_city_to_id [("paris", 342)] " PaRis " = map_city_to_id [("paris", 342)] "Paris"
    ∧ map_city_to_id [("paris", 342)] "berlin" = none :=
  ⟨claim_c8_city_resolution.1 [("paris", 342)] "Paris" " PaRis " (by decide),
   claim_c8_city_resolution.2 [("paris", 342)] "berlin" (by decide)⟩

theorem parsePyFloat_ne_empty {s : String} {v : Nat} (h : parsePyFloat s = some v) :
    s ≠ "" := by
  intro he
  have hz : parsePyFloat "" = none := by decide
  rw [he, hz] at h
  exact Option.noConfusion h

theorem label_not_numeric {s : String} {v : Nat} (h : parsePyFloat s = some v)
    (lab : String) (hlab : parsePyFloat lab = none) :
    pyLower (pyStrip s) ≠ lab := by
  intro he
  have hb : parsePyFloat (pyLower (pyStrip s)) = some v := by
    rw [parsePyFloat_lower_strip]; exact h
  rw [he, hlab] at hb
  exact Option.noConfusion hb

/-- C5: the nightly price band derived from the trip-context budget.
Budget `"budget"` gives (20, 80); an absent budget gives (20, 500); a
nonempty string that is neither a recognized label nor a numeral gives
(20, 500); a numeral above 500 is treated as a total trip budget over
`max 1 numDays` nights, banded `(max 20 (base/2), max (min+20) (3*base/2))`;
a positive numeral at most 500 is banded `(max 20 (v/2), max 40 (v*5/4))`
(the exact integer truncations of `±50%/+25%`). -/
theorem claim_c5_budget_banding :
    (∀ d, nightlyBand (some "budget") d = (20, 80))
    ∧ (∀ d, nightlyBand none d = (20, 500))
    ∧ (∀ (s : String) (d : Nat), s ≠ "" → parsePyFloat s = none →
        (let b := pyLower (pyStrip s)
         b ≠ "budget" ∧ b ≠ "cheap" ∧ b ≠ "low" ∧ b ≠ "mid" ∧ b ≠ "mid-range" ∧
           b ≠ "medium" ∧ b ≠ "luxury" ∧ b ≠ "high" ∧ b ≠ "premium") →
        nightlyBand (some s) d = (20, 500))
    ∧ (∀ (s : String) (d v : Nat), parsePyFloat s = some v → 500 < v →
        nightlyBand (some s) d =
          (max 20 (v / (2 * max 1 d)),
           max (max 20 (v / (2 * max 1 d)) + 20) (3 * v / (2 * max 1 d))))
    ∧ (∀ (s : String) (d v : Nat), parsePyFloat s = some v → 0 < v → v ≤ 500 →
        nightlyBand (some s) d = (max 20 (v / 2), max 40 (v * 5 / 4))) := by
  refine ⟨fun d => rfl, fun d => rfl, ?_, ?_, ?_⟩
  · intro s d hs hp hlabs
    obtain ⟨h1, h2, h3, h4, h5, h6, h7, h8, h9⟩ := hlabs
    have hb : parsePyFloat (pyLower (pyStrip s)) = none := by
      rw [parsePyFloat_lower_strip]; exact hp
    simp only [nightlyBand, Option.some_bind, hp]
    simp [infer_rate_range, hs, h1, h2, h3, h4, h5, h6, h7, h8, h9, hb]
  · intro s d v hp hv
    simp only [nightlyBand, Option.some_bind, hp]
    rw [if_pos ⟨by omega, hv⟩]
  · intro s d v hp h0 hv
    have hb : parsePyFloat (pyLower (pyStrip s)) = some v := by
      rw [parsePyFloat_lower_strip]; exact hp
    simp only [nightlyBand, Option.some_bind, hp]
    rw [if_neg (by omega)]
    have l1 := label_not_numeric hp "budget" (by decide)
    have l2 := label_not_numeric hp "cheap" (by decide)
    have l3 := label_not_numeric hp "low" (by decide)
    have l4 := label_not_numeric hp "mid" (by decide)
    have l5 := label_not_numeric hp "mid-range" (by decide)
    have l6 := label_not_numeric hp "medium" (by decide)
    have l7 := label_not_numeric hp "luxury" (by decide)
    have l8 := label_not_numeric hp "high" (by decide)
    have l9 := label_not_numeric hp "premium" (by decide)
    simp [infer_rate_range, parsePyFloat_ne_empty hp, l1, l2, l3, l4, l5, l6, l7, l8, l9, hb]

/-- Witness for C5: the spec's own examples — budget `"600"` over a 3-day
itinerary gives the (100, 300) band, `"150"` (≤ 500) gives (75, 187), and an
unparseable `"fancy"` gives (20, 500). -/
theorem claim_c5_budget_banding_witness :
    nightlyBand (some "600") 3 = (100, 300)
    ∧ nightlyBand (some "150") 5 = (75, 187)
    ∧ nightlyBand (some "fancy") 2 = (20, 500) :=
  ⟨(claim_c5_budget_banding.2.2.2.1 "600" 3 600 (by decide) (by decide)).trans (by decide),
   (claim_c5_budget_banding.2.2.2.2 "150" 5 150 (by decide) (by decide) (by decide)).trans
     (by decide),
   claim_c5_budget_banding.2.2.1 "fancy" 2 (by decide) (by decide) (by decide)⟩

theorem storeLookup_eq_none (store : Store) (key : String)
    (h : ¬ key ∈ store.map Prod.fst) : storeLookup store key = none := by
  induction store with
  | nil => rfl
  | cons kv rest ih =>
      obtain ⟨k, v⟩ := kv
      simp only [List.map_cons, List.mem_cons] at h
      push_neg at h
      unfold storeLookup
      rw [if_neg (by simp only [beq_iff_eq]; exact fun hh => h.1 hh.symm)]
      exact ih h.2

theorem storeUpsert_lookup_self (store : Store) (key text : String) :
    storeLookup (storeUpsert store key text) key = some text := by
  induction store with
  | nil => simp [storeUpsert, storeLookup]
  | cons kv rest ih =>
      obtain ⟨k, v⟩ := kv
      unfold storeUpsert
      by_cases h : k = key
      · rw [if_pos (by simp [h])]
        unfold storeLookup
        rw [if_pos (by simp [h])]
      · rw [if_neg (by simp [h])]
        unfold storeLookup
        rw [if_neg (by simp [h])]
        exact ih

theorem storeUpsert_lookup_other (store : Store) (key text j : String) (h : j ≠ key) :
    storeLookup (storeUpsert store key text) j = storeLookup store j := by
  induction store with
  | nil =>
      unfold storeUpsert storeLookup
      rw [if_neg (by simp only [beq_iff_eq]; exact fun hh => h hh.symm)]
      rfl
  | cons kv rest ih =>
      obtain ⟨k, v⟩ := kv
      unfold storeUpsert
      by_cases hk : k = key
      · rw [if_pos (by simp [hk])]
        unfold storeLookup
        rw [if_neg (by simp only [beq_iff_eq]; intro hh; exact h (hk ▸ hh).symm),
          if_neg (by simp only [beq_iff_eq]; intro hh; exact h (hk ▸ hh).symm)]
      · rw [if_neg (by simp [hk])]
        unfold storeLookup
        by_cases hj : k = j
        · rw [if_pos (by simp [hj]), if_pos (by simp [hj])]
        · rw [if_neg (by simp [hj]), if_neg (by simp [hj])]
          exact ih

/-- C4: `read` fails with the NotFound-style `ValueError` naming the
conversation id when no document exists; `write` of malformed JSON fails
with the validation error and leaves the store unchanged; `write` of
well-formed JSON upserts — the written id maps to the full new text and
every other id is untouched (insert if absent, full replace if present). -/
theorem claim_c4_storage_contract :
    (∀ (store : Store) (conversationId : String),
        ¬ conversationId ∈ store.map Prod.fst →
        read_itinerary_json store conversationId =
          .error ("No itinerary found for conversation ID: " ++ conversationId))
    ∧ (∀ (store : Store) (conversationId text : String), jsonParse text = none →
        write_itinerary_json store conversationId text = .error "InvalidDocument"
        ∧ storeAfterWrite store conversationId text = store)
    ∧ (∀ (store : Store) (conversationId text : String) (v : JsonVal),
        jsonParse text = some v →
        write_itinerary_json store conversationId text =
          .ok (storeUpsert store conversationId text)
        ∧ storeLookup (storeUpsert store conversationId text) conversationId = some text
        ∧ ∀ j, j ≠ conversationId →
            storeLookup (storeUpsert store conversationId text) j = storeLookup store j) := by
  refine ⟨?_, ?_, ?_⟩
  · intro store cid h
    unfold read_itinerary_json
    rw [storeLookup_eq_none store cid h]
  · intro store cid text hp
    have hw : write_itinerary_json store cid text = .error "InvalidDocument" := by
      unfold write_itinerary_json
      rw [hp]
    exact ⟨hw, by unfold storeAfterWrite; rw [hw]⟩
  · intro store cid text v hp
    refine ⟨by unfold write_itinerary_json; rw [hp], storeUpsert_lookup_self _ _ _, ?_⟩
    intro j hj
    exact storeUpsert_lookup_other _ _ _ _ hj

/-- Witness for C4: a one-document store — reading an absent id fails with
the NotFound error, writing malformed text fails leaving the store intact,
and writing well-formed JSON replaces the stored document. -/
theorem claim_c4_storage_contract_witness :
    read_itinerary_json [("c1", "\x7b\x7d")] "c2" =
      .error "No itinerary found for conversation ID: c2"
    ∧ (write_itinerary_json [("c1", "\x7b\x7d")] "c1" "oops" = .error "InvalidDocument"
        ∧ storeAfterWrite [("c1", "\x7b\x7d")] "c1" "oops" = [("c1", "\x7b\x7d")])
    ∧ storeLookup (storeUpsert [("c1", "\x7b\x7d")] "c1" "\x7b\x22a\x22: 1\x7d") "c1" =
        some "\x7b\x22a\x22: 1\x7d" :=
  ⟨claim_c4_storage_contract.1 [("c1", "\x7b\x7d")] "c2" (by decide),
   claim_c4_storage_contract.2.1 [("c1", "\x7b\x7d")] "c1" "oops" rfl,
   (claim_c4_storage_contract.2.2 [("c1", "\x7b\x7d")] "c1" "\x7b\x22a\x22: 1\x7d"
     (.obj [("a", .num 1)]) rfl).2.1⟩

/-- C2: in the response-item loop, a message turn whose text is exactly
`"HANDOFF: booking"` moves the pending active agent to the booking stage and
appends the system transcript entry carrying the conversation id, from any
prior state; a message `"HANDOFF: unknown_key"` (unrecognized stage key)
leaves both the active agent and the transcript unchanged. -/
theorem claim_c2_handoff_booking_vs_unknown :
    ∀ (conversationId : String) (st : LoopState),
      (processItems conversationId st [.message "HANDOFF: booking"]).agent = .booking
      ∧ (processItems conversationId st [.message "HANDOFF: booking"]).items
          = st.items ++ [systemEntry conversationId]
      ∧ (processItems conversationId st [.message "HANDOFF: unknown_key"]).agent = st.agent
      ∧ (processItems conversationId st [.message "HANDOFF: unknown_key"]).items = st.items := by
  intro conversationId st
  have ht : textHandoffTarget "HANDOFF: booking" = some .booking := by decide
  have hu : textHandoffTarget "HANDOFF: unknown_key" = none := by decide
  have hf : formatMessage (.message "HANDOFF: booking") = "HANDOFF: booking" := by decide
  have hfu : formatMessage (.message "HANDOFF: unknown_key") = "HANDOFF: unknown_key" := by
    decide
  refine ⟨?_, ?_, ?_, ?_⟩ <;> simp [processItems, stepItem, ht, hu, hf, hfu]

/-- Counterexample for C3: a turn whose agent invocation raises still
appends the user message to the stored transcript (src/api.py appends at
line 151 before `Runner.run`; the CLI loop of src/main.py does the same at
line 645), so the transcript after the failed turn differs from the one
before it. -/
theorem claim_c3_counterexample :
    (chatTurn "c1" { agent := .summary, items := [], ctx := { conversationId := some "c1" } }
        "please retry" none).1.items
      = [{ role := "user", content := "please retry" }]
    ∧ [{ role := "user", content := "please retry" : Entry }] ≠ ([] : List Entry) :=
  ⟨rfl, by decide⟩

/-- C3 as amended: when the agent invocation raises, the active-agent
pointer and the trip context are unchanged (given the context already
carries a conversation id, as every session created by the API does) and no
reply is produced, but the transcript does retain the user message that was
appended before the invocation. -/
theorem claim_c3_amended (conversationId : String) (sess : Session) (msg : String)
    (h : optTruthy sess.ctx.conversationId = true) :
    (chatTurn conversationId sess msg none).1.agent = sess.agent
    ∧ (chatTurn conversationId sess msg none).1.ctx = sess.ctx
    ∧ (chatTurn conversationId sess msg none).1.items
        = sess.items ++ [{ role := "user", content := msg }]
    ∧ (chatTurn conversationId sess msg none).2 = none := by
  obtain ⟨s, hx, hs⟩ : ∃ s, sess.ctx.conversationId = some s ∧ s ≠ "" := by
    cases hx : sess.ctx.conversationId with
    | none => rw [hx] at h; exact absurd h (by decide)
    | some s =>
        rw [hx] at h
        unfold optTruthy at h
        exact ⟨s, rfl, by simpa using h⟩
  refine ⟨?_, ?_, ?_, ?_⟩ <;> simp [chatTurn, hx, hs]

/-- Witness for C3 (amended): a concrete failed turn keeps agent and
context, appends exactly the user message, and yields no reply. -/
theorem claim_c3_amended_witness :
    (chatTurn "c9" ⟨.booking, [⟨"system", "x"⟩], { conversationId := some "c9" }⟩
        "hello" none).1.agent = .booking
    ∧ (chatTurn "c9" ⟨.booking, [⟨"system", "x"⟩], { conversationId := some "c9" }⟩
        "hello" none).1.ctx = { conversationId := some "c9" }
    ∧ (chatTurn "c9" ⟨.booking, [⟨"system", "x"⟩], { conversationId := some "c9" }⟩
        "hello" none).1.items = [⟨"system", "x"⟩] ++ [⟨"user", "hello"⟩]
    ∧ (chatTurn "c9" ⟨.booking, [⟨"system", "x"⟩], { conversationId := some "c9" }⟩
        "hello" none).2 = none :=
  claim_c3_amended "c9" ⟨.booking, [⟨"system", "x"⟩], { conversationId := some "c9" }⟩
    "hello" (by decide)

/-- Counterexample for C1: a turn whose items contain a native handoff
event (target: summary) followed by a recognized text-protocol marker
(`"HANDOFF: booking"`) leaves the booking agent active — the text marker,
processed later, overwrites the native handoff's target, so the native
handoff does not win regardless of order. -/
theorem claim_c1_counterexample :
    (processItems "c1" ⟨.userPreferences, [], []⟩
        [.handoff .itineraryStage .summary, .message "HANDOFF: booking"]).agent = .booking
    ∧ Stage.booking ≠ Stage.summary :=
  ⟨by decide, by decide⟩

theorem stepItem_agent (conversationId : String) (st : LoopState) (item : RunItem) :
    (stepItem conversationId st item).agent =
      match signalTarget item with
      | some a => a
      | none => st.agent := by
  cases item with
  | message t =>
      simp only [stepItem, signalTarget]
      cases h : textHandoffTarget t <;> simp only [h] <;>
        first
        | rfl
        | (split <;> rfl)
  | handoff s tgt =>
      simp only [stepItem, signalTarget] <;> first | rfl | (split <;> rfl)
  | toolCall a =>
      simp only [stepItem, signalTarget] <;> first | rfl | (split <;> rfl)
  | toolOut a out =>
      simp only [stepItem, signalTarget] <;> first | rfl | (split <;> rfl)

/-- C1 as amended: the active agent after the item loop is the target of
the LAST handoff signal — native handoff event or recognized text-protocol
marker — in item-processing order (unchanged when no signal occurs).  A
native handoff therefore wins only when it is processed after the text
marker; when the text marker comes later, its target wins. -/
theorem claim_c1_amended (conversationId : String) (st : LoopState) (items : List RunItem) :
    (processItems conversationId st items).agent
      = (items.filterMap signalTarget).getLastD st.agent := by
  induction items generalizing st with
  | nil => rfl
  | cons item rest ih =>
      show (processItems conversationId (stepItem conversationId st item) rest).agent = _
      rw [ih]
      cases hs : signalTarget item with
      | none =>
          rw [List.filterMap_cons_none hs]
          have ha : (stepItem conversationId st item).agent = st.agent := by
            rw [stepItem_agent, hs]
          rw [ha]
      | some a =>
          rw [List.filterMap_cons_some hs]
          have ha : (stepItem conversationId st item).agent = a := by
            rw [stepItem_agent, hs]
          rw [ha, List.getLastD_cons]

/-- C6: with destination, start and end dates all set (parseable, end not
before start), itinerary creation succeeds and the document has
`duration_days` equal to the inclusive day count, day numbers exactly
`1..duration_days` in order, and each day's date equal to the start date
plus `day_number - 1` days; with any of the three context fields unset,
creation fails with the missing-context error. -/
theorem claim_c6_itinerary_creation :
    (∀ (ctx : TripPlannerContext) (acts : List (List String)) (trans : List String)
        (accs : List (List String)) (notes : List String) (desc : String)
        (dest sds eds : String) (s e : PDate),
        ctx.destination = some dest → dest ≠ "" →
        ctx.startDate = some sds → ctx.endDate = some eds →
        parseDate sds = some s → parseDate eds = some e →
        toSerial s ≤ toSerial e →
        ∃ out, create_itinerary_json_tool ctx acts trans accs notes desc = .ok out
          ∧ out.durationDays = dayDiff e s + 1
          ∧ out.itinerary.length = (dayDiff e s + 1).toNat
          ∧ out.itinerary.map (fun d => d.dayNumber)
              = (List.range (dayDiff e s + 1).toNat).map (· + 1)
          ∧ ∀ i (hi : i < out.itinerary.length),
              (out.itinerary.get ⟨i, hi⟩).dayNumber = i + 1
              ∧ (out.itinerary.get ⟨i, hi⟩).date = formatDate (addDays s i))
    ∧ (∀ (ctx : TripPlannerContext) (acts : List (List String)) (trans : List String)
        (accs : List (List String)) (notes : List String) (desc : String),
        ctx.destination = none ∨ ctx.startDate = none ∨ ctx.endDate = none →
        create_itinerary_json_tool ctx acts trans accs notes desc =
          .error "Missing required context: destination, start_date, or end_date") := by
  constructor
  · intro ctx acts trans accs notes desc dest sds eds s e hdest hdne hsd hed hps hpe hle
    have hz : parseDate "" = none := by decide
    have hsne : sds ≠ "" := by
      intro hh
      rw [hh, hz] at hps
      exact Option.noConfusion hps
    have hene : eds ≠ "" := by
      intro hh
      rw [hh, hz] at hpe
      exact Option.noConfusion hpe
    unfold create_itinerary_json_tool
    rw [hdest, hsd, hed]
    rw [if_pos (by simp [optTruthy, hsne, hene, hdne])]
    simp only [Option.getD_some]
    rw [hps, hpe]
    refine ⟨_, rfl, rfl, ?_, ?_, ?_⟩
    · simp [dayDiff]
    · rw [List.map_map]
      rfl
    · intro i hi
      constructor
      · simp
      · simp
  · intro ctx acts trans accs notes desc h
    unfold create_itinerary_json_tool
    rw [if_neg]
    rcases h with h | h | h <;> simp [optTruthy, h]

/-- Witness for C6: a 3-day Paris itinerary (2025-05-01 to 2025-05-03) is
created with duration 3, and a context missing the destination fails. -/
theorem claim_c6_itinerary_creation_witness :
    (∃ out, create_itinerary_json_tool
        ⟨some "Paris", some "2025-05-01", some "2025-05-03", none, none, none, none⟩
        [["louvre"]] ["metro"] [["hotel"]] ["day one"] "short trip" = .ok out
      ∧ out.durationDays = 3)
    ∧ create_itinerary_json_tool ⟨none, some "2025-05-01", some "2025-05-03",
        none, none, none, none⟩ [] [] [] [] "d"
      = .error "Missing required context: destination, start_date, or end_date" := by
  constructor
  · obtain ⟨out, h1, h2, _⟩ := claim_c6_itinerary_creation.1
      ⟨some "Paris", some "2025-05-01", some "2025-05-03", none, none, none, none⟩
      [["louvre"]] ["metro"] [["hotel"]] ["day one"] "short trip"
      "Paris" "2025-05-01" "2025-05-03" ⟨2025, 5, 1⟩ ⟨2025, 5, 3⟩
      rfl (by decide) rfl rfl (by decide) (by decide) (by decide)
    exact ⟨out, h1, by rw [h2]; decide⟩
  · exact claim_c6_itinerary_creation.2 _ [] [] [] [] "d" (Or.inl rfl)

theorem setKey_lookup_self (l : List (String × JsonVal)) (key : String) (v : JsonVal) :
    lookupKey (setKey l key v) key = some v := by
  induction l with
  | nil => simp [setKey, lookupKey]
  | cons kv rest ih =>
      obtain ⟨k, w⟩ := kv
      unfold setKey
      by_cases h : k = key
      · rw [if_pos (by simp [h])]
        unfold lookupKey
        rw [if_pos (by simp [h])]
      · rw [if_neg (by simp [h])]
        unfold lookupKey
        rw [if_neg (by simp [h])]
        exact ih

theorem setKey_lookup_other (l : List (String × JsonVal)) (key : String) (v : JsonVal)
    (j : String) (h : j ≠ key) :
    lookupKey (setKey l key v) j = lookupKey l j := by
  induction l with
  | nil =>
      unfold setKey lookupKey
      rw [if_neg (by simp only [beq_iff_eq]; exact fun hh => h hh.symm)]
      rfl
  | cons kv rest ih =>
      obtain ⟨k, w⟩ := kv
      unfold setKey
      by_cases hk : k = key
      · rw [if_pos (by simp [hk])]
        unfold lookupKey
        rw [if_neg (by simp only [beq_iff_eq]; intro hh; exact h (hk ▸ hh).symm),
          if_neg (by simp only [beq_iff_eq]; intro hh; exact h (hk ▸ hh).symm)]
      · rw [if_neg (by simp [hk])]
        unfold lookupKey
        by_cases hj : k = j
        · rw [if_pos (by simp [hj]), if_pos (by simp [hj])]
        · rw [if_neg (by simp [hj]), if_neg (by simp [hj])]
          exact ih

theorem attemptLoop_exn (net : NetOracle) (path : String) (hnet : ∀ n, net n = .exn) :
    ∀ (k c : Nat) (err : Option JsonVal),
      ∃ c', attemptLoop net path k c err = (c', none, err) := by
  intro k
  induction k with
  | zero => intro c err; exact ⟨c, rfl⟩
  | succ k ih =>
      intro c err
      obtain ⟨c', hc'⟩ := ih (c + 1) err
      refine ⟨c', ?_⟩
      unfold attemptLoop
      rw [hnet c]
      exact hc'

theorem pathLoop_exn (net : NetOracle) (hnet : ∀ n, net n = .exn) :
    ∀ (paths : List String) (c : Nat) (err : Option JsonVal),
      ∃ c', pathLoop net paths c err = (c', none, err) := by
  intro paths
  induction paths with
  | nil => intro c err; exact ⟨c, rfl⟩
  | cons p rest ih =>
      intro c err
      obtain ⟨c1, hc1⟩ := attemptLoop_exn net p hnet 3 c err
      obtain ⟨c2, hc2⟩ := ih c1 err
      refine ⟨c2, ?_⟩
      unfold pathLoop
      rw [hc1]
      exact hc2

theorem processDay_exn_snd (net : NetOracle) (paths : List String) (table : CityTable)
    (dest : Option JsonVal) (c : Nat) (kvs : List (String × JsonVal))
    (hnet : ∀ n, net n = .exn)
    (hacc : ∃ v, lookupKey kvs "accommodation" = some v ∧ truthy v = true) :
    (processDay net paths table dest c kvs).2 = kvs := by
  cases hm : map_city_to_id table ((dayCityName dest kvs).getD "") with
  | some cid =>
      obtain ⟨c', hc'⟩ := pathLoop_exn net hnet paths c none
      simp [processDay, hm, hc']
  | none =>
      obtain ⟨v, hv, ht⟩ := hacc
      simp [processDay, hm, hv, ht]

theorem foldl_enrichStep_exn (net : NetOracle) (paths : List String) (table : CityTable)
    (dest : Option JsonVal) (hnet : ∀ n, net n = .exn) :
    ∀ (days : List JsonVal),
      (∀ d ∈ days, ∃ kvs, d = .obj kvs ∧
          ∃ v, lookupKey kvs "accommodation" = some v ∧ truthy v = true) →
      ∀ (c : Nat) (acc : List JsonVal),
        (days.foldl (enrichStep net paths table dest) (c, acc)).2 = acc ++ days := by
  intro days
  induction days with
  | nil => intro _ c acc; simp
  | cons d rest ih =>
      intro hdays c acc
      obtain ⟨kvs, rfl, hv⟩ := hdays d (by simp)
      rcases hpd : processDay net paths table dest c kvs with ⟨c', kvs'⟩
      have hsnd : kvs' = kvs := by
        have := processDay_exn_snd net paths table dest c kvs hnet hv
        rw [hpd] at this
        exact this
      subst hsnd
      simp only [List.foldl_cons, enrichStep, hpd]
      rw [ih (fun d hd => hdays d (by simp [hd]))]
      simp

/-- C7: enriching an itinerary whose every day already carries truthy,
non-error accommodation data, while every outbound search call raises,
leaves the stored day list — and hence every day's accommodation field —
exactly as it was. -/
theorem claim_c7_enrichment_idempotent (net : NetOracle) (paths : List String)
    (table : CityTable) (doc : List (String × JsonVal))
    (hnet : ∀ n, net n = .exn)
    (hdays : ∀ d ∈ itinDays doc, ∃ kvs, d = .obj kvs ∧
        ∃ v, lookupKey kvs "accommodation" = some v ∧ truthy v = true
          ∧ (match v with | .obj o => (lookupKey o "agoda_error").isNone | _ => true) = true) :
    itinDays (populateAccommodations net paths table doc) = itinDays doc := by
  have hset : ∀ ds, itinDays (setKey doc "itinerary" (.arr ds)) = ds := by
    intro ds
    unfold itinDays
    rw [setKey_lookup_self]
  have h := foldl_enrichStep_exn net paths table (lookupKey doc "destination") hnet
    (itinDays doc)
    (fun d hd => by
      obtain ⟨kvs, he, v, hv, ht, _⟩ := hdays d hd
      exact ⟨kvs, he, v, hv, ht⟩)
    0 []
  simp only [populateAccommodations]
  rw [h, List.nil_append, hset]

/-- Witness for C7: a one-day itinerary already carrying accommodation data
survives a second enrichment run in which every call raises. -/
theorem claim_c7_enrichment_idempotent_witness :
    itinDays (populateAccommodations (fun _ => .exn) [""] [("paris", 342)]
        [("destination", .str "Paris"),
          ("itinerary", .arr [.obj [("location", .str "Paris"),
            ("accommodation", .str "Grand Hotel")]])])
      = itinDays [("destination", .str "Paris"),
          ("itinerary", .arr [.obj [("location", .str "Paris"),
            ("accommodation", .str "Grand Hotel")]])] := by
  apply claim_c7_enrichment_idempotent
  · intro n
    rfl
  · intro d hd
    have hd' : d = .obj [("location", .str "Paris"), ("accommodation", .str "Grand Hotel")] := by
      simpa [itinDays, lookupKey] using hd
    exact ⟨_, hd', .str "Grand Hotel", rfl, rfl, rfl⟩

theorem processDay_snd_frame (net : NetOracle) (paths : List String) (table : CityTable)
    (dest : Option JsonVal) (c : Nat) (kvs : List (String × JsonVal)) :
    ∀ k, k ≠ "accommodation" →
      lookupKey (processDay net paths table dest c kvs).2 k = lookupKey kvs k := by
  intro k hk
  cases hm : map_city_to_id table ((dayCityName dest kvs).getD "") with
  | some cid =>
      rcases hpl : pathLoop net paths c none with ⟨c', rj, rerr⟩
      simp only [processDay, hm, hpl]
      cases rj with
      | none =>
          cases rerr with
          | none => rfl
          | some e => exact setKey_lookup_other _ _ _ _ hk
      | some body =>
          cases body <;> cases rerr <;>
            first
            | rfl
            | exact setKey_lookup_other _ _ _ _ hk
  | none =>
      simp only [processDay, hm]
      cases ha : lookupKey kvs "accommodation" with
      | none => exact setKey_lookup_other _ _ _ _ hk
      | some v =>
          by_cases ht : truthy v = true
          · simp [ht]
          · simp only [ht, Bool.false_eq_true, if_false]
            exact setKey_lookup_other _ _ _ _ hk

theorem foldl_enrichStep_frame (net : NetOracle) (paths : List String) (table : CityTable)
    (dest : Option JsonVal) :
    ∀ (days : List JsonVal) (c : Nat) (acc : List JsonVal),
      ∃ days', (days.foldl (enrichStep net paths table dest) (c, acc)).2 = acc ++ days'
        ∧ List.Forall₂ dayFrame days days' := by
  intro days
  induction days with
  | nil => intro c acc; exact ⟨[], by simp, List.Forall₂.nil⟩
  | cons d rest ih =>
      intro c acc
      cases d with
      | obj kvs =>
          rcases hpd : processDay net paths table dest c kvs with ⟨c', kvs'⟩
          obtain ⟨rest', hr, hfr⟩ := ih c' (acc ++ [.obj kvs'])
          refine ⟨.obj kvs' :: rest', ?_, ?_⟩
          · simp only [List.foldl_cons, enrichStep, hpd]
            rw [hr]
            simp
          · refine List.Forall₂.cons ⟨?_, ?_⟩ hfr
            · intro kvs0 h0
              refine ⟨kvs', rfl, ?_⟩
              intro k hk
              have := processDay_snd_frame net paths table dest c kvs k hk
              rw [hpd] at this
              cases h0
              exact this
            · intro hno
              exact absurd rfl (hno kvs)
      | null =>
          obtain ⟨rest', hr, hfr⟩ := ih c (acc ++ [.null])
          refine ⟨.null :: rest', ?_, ?_⟩
          · simp only [List.foldl_cons, enrichStep]
            rw [hr]
            simp
          · exact List.Forall₂.cons ⟨fun kvs0 h0 => JsonVal.noConfusion h0, fun _ => rfl⟩ hfr
      | bool b =>
          obtain ⟨rest', hr, hfr⟩ := ih c (acc ++ [.bool b])
          refine ⟨.bool b :: rest', ?_, ?_⟩
          · simp only [List.foldl_cons, enrichStep]
            rw [hr]
            simp
          · exact List.Forall₂.cons ⟨fun kvs0 h0 => JsonVal.noConfusion h0, fun _ => rfl⟩ hfr
      | num n =>
          obtain ⟨rest', hr, hfr⟩ := ih c (acc ++ [.num n])
          refine ⟨.num n :: rest', ?_, ?_⟩
          · simp only [List.foldl_cons, enrichStep]
            rw [hr]
            simp
          · exact List.Forall₂.cons ⟨fun kvs0 h0 => JsonVal.noConfusion h0, fun _ => rfl⟩ hfr
      | str s =>
          obtain ⟨rest', hr, hfr⟩ := ih c (acc ++ [.str s])
          refine ⟨.str s :: rest', ?_, ?_⟩
          · simp only [List.foldl_cons, enrichStep]
            rw [hr]
            simp
          · exact List.Forall₂.cons ⟨fun kvs0 h0 => JsonVal.noConfusion h0, fun _ => rfl⟩ hfr
      | arr xs =>
          obtain ⟨rest', hr, hfr⟩ := ih c (acc ++ [.arr xs])
          refine ⟨.arr xs :: rest', ?_, ?_⟩
          · simp only [List.foldl_cons, enrichStep]
            rw [hr]
            simp
          · exact List.Forall₂.cons ⟨fun kvs0 h0 => JsonVal.noConfusion h0, fun _ => rfl⟩ hfr

/-- C10: accommodation enrichment changes at most each day's
`accommodation` field — the day count and order are preserved, every other
field of every day is preserved, and every top-level field of the document
other than the day list is preserved (the day list itself is rewritten in
place). -/
theorem claim_c10_enrichment_frame (net : NetOracle) (paths : List String)
    (table : CityTable) (doc : List (String × JsonVal)) :
    (∀ k, k ≠ "itinerary" →
        lookupKey (populateAccommodations net paths table doc) k = lookupKey doc k)
    ∧ (itinDays (populateAccommodations net paths table doc)).length = (itinDays doc).length
    ∧ List.Forall₂ dayFrame (itinDays doc)
        (itinDays (populateAccommodations net paths table doc)) := by
  obtain ⟨days', hd, hfr⟩ := foldl_enrichStep_frame net paths table
    (lookupKey doc "destination") (itinDays doc) 0 []
  have hpop : populateAccommodations net paths table doc
      = setKey doc "itinerary" (.arr days') := by
    simp only [populateAccommodations]
    rw [hd, List.nil_append]
  have hset : itinDays (setKey doc "itinerary" (.arr days')) = days' := by
    unfold itinDays
    rw [setKey_lookup_self]
  refine ⟨?_, ?_, ?_⟩
  · intro k hk
    rw [hpop]
    exact setKey_lookup_other _ _ _ _ hk
  · rw [hpop, hset]
    exact (List.Forall₂.length_eq hfr).symm
  · rw [hpop, hset]
    exact hfr

/-- Witness for C10: on a concrete one-day document whose enrichment run
succeeds and overwrites the accommodation field, the destination field and
the day's location field are untouched. -/
theorem claim_c10_enrichment_frame_witness :
    lookupKey (populateAccommodations (fun _ => .ok (.obj [("results", .arr [.str "h1"])]))
        [""] [("paris", 342)]
        [("destination", .str "Paris"),
          ("itinerary", .arr [.obj [("location", .str "Paris"), ("accommodation", .null)]])])
      "destination"
    = lookupKey [("destination", .str "Paris"),
        ("itinerary", .arr [.obj [("location", .str "Paris"), ("accommodation", .null)]])]
      "destination" :=
  (claim_c10_enrichment_frame (fun _ => .ok (.obj [("results", .arr [.str "h1"])]))
    [""] [("paris", 342)]
    [("destination", .str "Paris"),
      ("itinerary", .arr [.obj [("location", .str "Paris"), ("accommodation", .null)]])]).1
    "destination" (by decide)

/-- Counterexample for C9: a message whose text parses as JSON but is not
itinerary-shaped is returned verbatim by the reply formatter — the raw JSON
does reach the displayed reply, so non-itinerary JSON in messages is NOT
suppressed from display. -/
theorem claim_c9_counterexample :
    jsonParse "\x7b\x22a\x22: 1\x7d" = some (.obj [("a", .num 1)])
    ∧ hasItineraryKeys (.obj [("a", .num 1)]) = false
    ∧ formatMessage (.message "\x7b\x22a\x22: 1\x7d") = "\x7b\x22a\x22: 1\x7d" :=
  ⟨rfl, rfl, rfl⟩

/-- C9 as amended: itinerary-shaped JSON payloads — in messages and in tool
results — are rendered as formatted itinerary text (with a fixed fallback
phrase if the formatter raises) rather than raw JSON, and a tool result
whose payload is non-itinerary JSON is suppressed into a fixed status line;
but a message whose payload is non-itinerary JSON is returned verbatim (its
raw JSON is displayed, not suppressed). -/
theorem claim_c9_amended :
    (∀ (t : String) (v : JsonVal), t ≠ "" → jsonParse t = some v →
        hasItineraryKeys v = true →
        formatMessage (.message t) = (formatItineraryVal v).getD "Itinerary updated.")
    ∧ (∀ (a : Stage) (out : String) (v : JsonVal), jsonParse out = some v →
        hasItineraryKeys v = true →
        formatMessage (.toolOut a out)
          = (formatItineraryVal v).getD (stageName a ++ ": Itinerary updated."))
    ∧ (∀ (a : Stage) (out : String) (v : JsonVal), jsonParse out = some v →
        hasItineraryKeys v = false →
        formatMessage (.toolOut a out) = stageName a ++ ": Tool completed.")
    ∧ (∀ (t : String) (v : JsonVal), t ≠ "" → jsonParse t = some v →
        hasItineraryKeys v = false →
        formatMessage (.message t) = t) := by
  refine ⟨?_, ?_, ?_, ?_⟩
  · intro t v ht hp hk
    simp [formatMessage, ht, hp, hk]
  · intro a out v hp hk
    simp [formatMessage, hp, hk]
  · intro a out v hp hk
    simp [formatMessage, hp, hk]
  · intro t v ht hp hk
    simp [formatMessage, ht, hp, hk]

/-- Witness for C9 (amended): a concrete itinerary-shaped message is
formatted, and a concrete non-itinerary JSON message is echoed verbatim. -/
theorem claim_c9_amended_witness :
    formatMessage (.message ("\x7b\x22destination\x22: \x22X\x22, \x22start_date\x22: \x22a\x22, "
        ++ "\x22end_date\x22: \x22b\x22, \x22itinerary\x22: []\x7d"))
      = (formatItineraryVal (.obj [("destination", .str "X"), ("start_date", .str "a"),
          ("end_date", .str "b"), ("itinerary", .arr [])])).getD "Itinerary updated."
    ∧ formatMessage (.message "[1, 2]") = "[1, 2]" :=
  ⟨claim_c9_amended.1 ("\x7b\x22destination\x22: \x22X\x22, \x22start_date\x22: \x22a\x22, "
        ++ "\x22end_date\x22: \x22b\x22, \x22itinerary\x22: []\x7d")
      (.obj [("destination", .str "X"), ("start_date", .str "a"),
        ("end_date", .str "b"), ("itinerary", .arr [])]) (by decide) rfl rfl,
   claim_c9_amended.2.2.2 "[1, 2]" (.arr [.num 1, .num 2]) (by decide) rfl rfl⟩
